import Mathlib

/-!
A shallow embedding of `coursera.py`: a scraper that downloads the Coursera
sitemap, visits each listed course page, extracts five fields from the page
via HTML/JSON lookups guarded by `try/except`, and writes the results to an
xlsx spreadsheet.  Network responses, parsed documents, the decoded
`application/ld+json` payload, the spreadsheet and the `__main__` control
flow are modelled explicitly; each Python function is translated one to one.
-/

/-- Python runtime values as they occur in this program: strings, ints,
data decoded by `json.loads`, and the per-course dictionaries.  JSON number
literals are carried as their source text, since the program never computes
with them. -/
inductive PyVal where
  | vNone  : PyVal
  | vBool  : Bool → PyVal
  | vInt   : Int → PyVal
  | vNum   : String → PyVal
  | vStr   : String → PyVal
  | vList  : List PyVal → PyVal
  | vDict  : List (String × PyVal) → PyVal

/-- The Python exceptions this program can raise.  `jsonDecodeError` stands
for `json.JSONDecodeError` (a `ValueError`), raised by `json.loads`. -/
inductive PyExn where
  | attrError
  | indexError
  | keyError
  | typeError
  | jsonDecodeError
deriving DecidableEq, Repr

/-- A tag found in the parse tree, abstracted to the only part the program
reads: its `.text`. -/
structure Element where
  text : String

/-- A `<script>` tag: its `type` attribute, its text, and the outcome of
`json.loads` on the stripped text (`none` models a `json.JSONDecodeError`).
The parse outcome is carried as a field because `json.loads` is external
library code; the getters only branch on its result. -/
structure Script where
  typeAttr : Option String
  text : String
  jsonParse : Option PyVal

/-- The element found by `soup.find(class_='rc-WeekView')`, together with
the result of `.find_all(class_='week')` on it. -/
structure WeeksView where
  weeks : List Element

/-- A parsed course page, abstracted to the query results the five getters
inspect.  Each `find(class_=...)` call is modelled by the corresponding
field (the first matching element, or `none`); the script lookups scan the
`scripts` list, which holds the page's `<script>` tags in document order. -/
structure CourseDoc where
  nameElem : Option Element
  languageElem : Option Element
  weeksElem : Option WeeksView
  scripts : List Script

/-- Does the regex `window.App` (with `.` matching any character except a
newline, as in `re.search`) match at the head of `cs`? -/
def windowAppMatchAt (cs : List Char) : Bool :=
  "window".toList.isPrefixOf cs &&
    (match cs.drop 6 with
     | [] => false
     | c :: rest => c != '\n' && "App".toList.isPrefixOf rest)

/-- `re.search` for the pattern `window.App`: try every suffix. -/
def windowAppSearch : List Char → Bool
  | [] => false
  | c :: rest => windowAppMatchAt (c :: rest) || windowAppSearch rest

/-- `soup.find('script', text=re.compile('window.App'))`: the first script
whose text the regex search matches. -/
def findWindowAppScript (d : CourseDoc) : Option Script :=
  d.scripts.find? (fun sc => windowAppSearch sc.text.toList)

/-- The literal part of the rating regex, `"averageFiveStarRating":`. -/
def ratingLit : List Char := "\"averageFiveStarRating\":".toList

/-- A character matched by the regex class `[\d.]`. -/
def isRatingChar (c : Char) : Bool := c.isDigit || c == '.'

/-- Try to match `"averageFiveStarRating":([\d.]+)` at the head of `cs`,
returning the (greedy) capture group. -/
def ratingMatchAt (cs : List Char) : Option String :=
  if ratingLit.isPrefixOf cs then
    let run := (cs.drop ratingLit.length).takeWhile isRatingChar
    if run.isEmpty then none else some (String.mk run)
  else none

/-- Scan for the first match of the rating regex, advancing one character at
a time exactly as `re.findall` does when a position fails to match. -/
def ratingSearch : List Char → Option String
  | [] => none
  | c :: rest =>
    match ratingMatchAt (c :: rest) with
    | some r => some r
    | none => ratingSearch rest

/-- `re.findall(r'"averageFiveStarRating":([\d.]+)', s)[0]`, as an `Option`:
`none` models the `IndexError` of indexing an empty result list. -/
def findRating (s : String) : Option String := ratingSearch s.toList

/-- `soup.find('script', type='application/ld+json')`. -/
def findLdJsonScript (d : CourseDoc) : Option Script :=
  d.scripts.find? (fun sc => sc.typeAttr == some "application/ld+json")

/-- Python `v[k]` for a string key `k`: a dict yields its entry or
`KeyError`; lists, strings and scalars raise `TypeError`. -/
def pySubscriptStr (v : PyVal) (k : String) : Except PyExn PyVal :=
  match v with
  | .vDict entries =>
    match entries.lookup k with
    | some w => .ok w
    | none => .error .keyError
  | _ => .error .typeError

/-- Python `v[0]`: a list yields its head or `IndexError`; a JSON-decoded
dict has no key `0`, so `KeyError`; a string yields its first character or
`IndexError`; scalars raise `TypeError`. -/
def pySubscriptZero (v : PyVal) : Except PyExn PyVal :=
  match v with
  | .vList [] => .error .indexError
  | .vList (x :: _) => .ok x
  | .vDict _ => .error .keyError
  | .vStr s =>
    match s.toList with
    | [] => .error .indexError
    | c :: _ => .ok (.vStr (String.mk [c]))
  | _ => .error .typeError

/-- `Course.get_name`.  The argument is `self.soup`, which is `None` when
the page fetch failed; `None.find` and `None.text` raise `AttributeError`,
which the getter catches and turns into `'-'`. -/
def get_name (soup : Option CourseDoc) : String :=
  match soup with
  | none => "-"
  | some d =>
    match d.nameElem with
    | some e => e.text
    | none => "-"

/-- `Course.get_language`. -/
def get_language (soup : Option CourseDoc) : String :=
  match soup with
  | none => "-"
  | some d =>
    match d.languageElem with
    | some e => e.text
    | none => "-"

/-- `Course.get_duration`: `len` of the week elements (an `int`), or `'-'`
on `AttributeError`. -/
def get_duration (soup : Option CourseDoc) : PyVal :=
  match soup with
  | none => .vStr "-"
  | some d =>
    match d.weeksElem with
    | some wv => .vInt wv.weeks.length
    | none => .vStr "-"

/-- `Course.get_average_score`: the first capture of the rating regex in the
`window.App` script, or `'-'` on `AttributeError`/`IndexError`. -/
def get_average_score (soup : Option CourseDoc) : String :=
  match soup with
  | none => "-"
  | some d =>
    match findWindowAppScript d with
    | none => "-"
    | some sc =>
      match findRating sc.text with
      | some r => r
      | none => "-"

/-- The `try` body of `Course.get_start_date`:
`json.loads(find('script', type='application/ld+json').text.strip())`
followed by `['hasCourseInstance'][0]['startDate']`.  Each failure point
raises the exception the corresponding Python operation raises. -/
def start_date_body (soup : Option CourseDoc) : Except PyExn PyVal :=
  match soup with
  | none => .error .attrError
  | some d =>
    match findLdJsonScript d with
    | none => .error .attrError
    | some sc =>
      match sc.jsonParse with
      | none => .error .jsonDecodeError
      | some j =>
        match pySubscriptStr j "hasCourseInstance" with
        | .error e => .error e
        | .ok a =>
          match pySubscriptZero a with
          | .error e => .error e
          | .ok b => pySubscriptStr b "startDate"

/-- `Course.get_start_date`: the handler catches exactly
`(AttributeError, IndexError, KeyError)`; any other exception propagates. -/
def get_start_date (soup : Option CourseDoc) : Except PyExn PyVal :=
  match start_date_body soup with
  | .ok v => .ok v
  | .error .attrError => .ok (.vStr "-")
  | .error .indexError => .ok (.vStr "-")
  | .error .keyError => .ok (.vStr "-")
  | .error e => .error e

/-- `Course.get_course_info`: the dict literal evaluates the five getters in
key order.  Only `get_start_date` can raise, and the other four getters are
total, so evaluating it first is equivalent to the Python order. -/
def get_course_info (soup : Option CourseDoc) :
    Except PyExn (List (String × PyVal)) :=
  match get_start_date soup with
  | .error e => .error e
  | .ok sd =>
    .ok [("name", .vStr (get_name soup)),
         ("language", .vStr (get_language soup)),
         ("weeks", get_duration soup),
         ("average_score", .vStr (get_average_score soup)),
         ("start_date", sd)]

/-- An HTTP response: the status code, and the BeautifulSoup parse of the
response text (the parse of the body always exists; `get_soup_from_url`
only returns it when the status is 200). -/
structure HttpResponse (α : Type) where
  status : Nat
  body : α

/-- `get_soup_from_url`: returns the soup on status 200, and (implicitly)
`None` otherwise. -/
def get_soup_from_url {α : Type} (r : HttpResponse α) : Option α :=
  if r.status = 200 then some r.body else none

/-- The sitemap document, abstracted to the texts of its `<loc>` tags, in
document order — what `find_all('loc')` traverses. -/
structure SitemapDoc where
  locs : List String

/-- bs4's `find_all(..., limit=n)` loop runs
`if limit and len(results) >= limit: break`, so a zero limit is falsy and
disables the cap, a negative limit stops after the first result, and a
positive limit takes that many results. -/
def bs_find_all_limit {α : Type} (limit : Int) (items : List α) : List α :=
  if limit = 0 then items
  else if limit < 0 then items.take 1
  else items.take limit.toNat

/-- `get_courses_list`: fetch the sitemap, and on success list the texts of
the first `amount`-limited `<loc>` tags. -/
def get_courses_list (r : HttpResponse SitemapDoc) (amount : Int) :
    Option (List String) :=
  match get_soup_from_url r with
  | none => none
  | some doc => some (bs_find_all_limit amount doc.locs)

/-- `parse_courses`: fetch each URL, build a `Course` from the (possibly
`None`) soup and collect `get_course_info()`; an uncaught exception aborts
the loop. -/
def parse_courses (fetch : String → HttpResponse CourseDoc) :
    List String → Except PyExn (List (List (String × PyVal)))
  | [] => .ok []
  | url :: rest =>
    match get_course_info (get_soup_from_url (fetch url)) with
    | .error e => .error e
    | .ok info =>
      match parse_courses fetch rest with
      | .error e => .error e
      | .ok tail => .ok (info :: tail)

/-- Python substring containment over char lists: `needle in hay`. -/
def pyStrContainsGo (needle : List Char) : List Char → Bool
  | [] => needle.isEmpty
  | c :: rest => needle.isPrefixOf (c :: rest) || pyStrContainsGo needle rest

/-- Python `needle in hay` on strings (substring containment). -/
def pyStrContains (needle hay : String) : Bool :=
  pyStrContainsGo needle.toList hay.toList

/-- The filename fixup in `__main__`:
`if '.xlsx' not in output_file_name: output_file_name += '.xlsx'`. -/
def adjust_output_filename (s : String) : String :=
  if pyStrContains ".xlsx" s then s else s ++ ".xlsx"

/-- Written from the spec's words, for comparison with the code: a filename
"has the '.xlsx' spreadsheet extension" when it ends with `.xlsx`. -/
def spec_hasXlsxExtension (s : String) : Bool :=
  ".xlsx".toList.isSuffixOf s.toList

/-- Accumulate the decimal value of a digit run; `none` on a non-digit. -/
def pyDigitsGo (acc : Nat) : List Char → Option Nat
  | [] => some acc
  | c :: rest =>
    if c.isDigit then pyDigitsGo (acc * 10 + (c.toNat - '0'.toNat)) rest
    else none

/-- The value of a non-empty digit string. -/
def pyDigits : List Char → Option Nat
  | [] => none
  | c :: rest => pyDigitsGo 0 (c :: rest)

/-- Python `int(s)` on an optionally signed decimal literal, the form
argparse receives here (`int()` also strips whitespace and accepts
underscore separators; those inputs are out of scope). -/
def pyParseInt (s : String) : Option Int :=
  match s.toList with
  | '-' :: rest => (pyDigits rest).map (fun n => -(n : Int))
  | '+' :: rest => (pyDigits rest).map (fun n => (n : Int))
  | l => (pyDigits l).map (fun n => (n : Int))

/-- `parse_arguments`: four optional positional arguments
(`amount : int`, `output : str`, `name_width : int`, `lang_width : int`)
with defaults `20`, `'courses.xlsx'`, `40`, `40`; argparse binds positional
values left to right, converts with `int()` (modelled by `pyParseInt`)
and errors out (here `none`) on a bad conversion or extra arguments.
The function returns `(amount, name_width, lang_width, output)`. -/
def parse_arguments (argv : List String) :
    Option (Int × Int × Int × String) :=
  match argv with
  | [] => some (20, 40, 40, "courses.xlsx")
  | [a] =>
    match pyParseInt a with
    | some n => some (n, 40, 40, "courses.xlsx")
    | none => none
  | [a, o] =>
    match pyParseInt a with
    | some n => some (n, 40, 40, o)
    | none => none
  | [a, o, nw] =>
    match pyParseInt a, pyParseInt nw with
    | some n, some w1 => some (n, w1, 40, o)
    | _, _ => none
  | [a, o, nw, lw] =>
    match pyParseInt a, pyParseInt nw, pyParseInt lw with
    | some n, some w1, some w2 => some (n, w1, w2, o)
    | _, _, _ => none
  | _ => none

/-- A spreadsheet cell value: either a plain Python value, or the result of
`textwrap.fill(s, width)`, kept symbolic since the wrapping algorithm is
external library code the program only pipes strings through. -/
inductive XVal where
  | plain : PyVal → XVal
  | filled : String → Int → XVal

/-- An openpyxl workbook, abstracted to its column widths and the sequence
of cell assignments `sheet.cell(row, column).value = v` in execution order
(a later assignment to the same cell overwrites an earlier one). -/
structure Workbook where
  widths : List (String × Int)
  writes : List ((Nat × Nat) × XVal)

/-- `sheet.cell(row=r, column=c).value = v`. -/
def setCell (wb : Workbook) (r c : Nat) (v : XVal) : Workbook :=
  { wb with writes := wb.writes ++ [((r, c), v)] }

/-- Folding step for reading a cell: the last write to `(r, c)` wins. -/
def cellUpd (r c : Nat) (acc : Option XVal) (w : (Nat × Nat) × XVal) :
    Option XVal :=
  if w.1.1 = r ∧ w.1.2 = c then some w.2 else acc

/-- The value a sequence of writes leaves in cell `(r, c)`. -/
def cellValueW (ws : List ((Nat × Nat) × XVal)) (r c : Nat) : Option XVal :=
  ws.foldl (cellUpd r c) none

/-- The value of cell `(r, c)` of the workbook, `none` if never written. -/
def cellValue (wb : Workbook) (r c : Nat) : Option XVal :=
  cellValueW wb.writes r c

/-- `setup_excel_workbook`: sets the five column widths (the Python
defaults for the last three are 16, 9 and 16, passed explicitly here) and
writes the five header cells of row 1. -/
def setup_excel_workbook (name_width language_width date_width
    duration_width average_score_width : Int) : Workbook :=
  let wb : Workbook :=
    { widths := [("A", name_width), ("B", language_width),
                 ("C", date_width), ("D", duration_width),
                 ("E", average_score_width)],
      writes := [] }
  let wb := setCell wb 1 1 (.plain (.vStr "Name of course"))
  let wb := setCell wb 1 2 (.plain (.vStr "Language"))
  let wb := setCell wb 1 3 (.plain (.vStr "Date of start"))
  let wb := setCell wb 1 4 (.plain (.vStr "Duration"))
  let wb := setCell wb 1 5 (.plain (.vStr "Average score"))
  wb

/-- Python `course[k]` on a dict: `KeyError` when the key is absent. -/
def pyDictGet (d : List (String × PyVal)) (k : String) :
    Except PyExn PyVal :=
  match d.lookup k with
  | some v => .ok v
  | none => .error .keyError

/-- `textwrap.fill(v, width)` as a cell value: `fill` immediately calls
`text.expandtabs()`, so a non-string argument raises `AttributeError`. -/
def textwrap_fill_cell (v : PyVal) (width : Int) : Except PyExn XVal :=
  match v with
  | .vStr s => .ok (.filled s width)
  | _ => .error .attrError

/-- One iteration of the `output_courses_info_to_xlsx` loop: write the five
cells of row `row` from one course dict, in statement order. -/
def writeCourseRow (wb : Workbook) (row : Nat)
    (course : List (String × PyVal))
    (name_column_width language_column_width : Int) :
    Except PyExn Workbook :=
  match pyDictGet course "name" with
  | .error e => .error e
  | .ok n =>
    match textwrap_fill_cell n name_column_width with
    | .error e => .error e
    | .ok nf =>
      let wb := setCell wb row 1 nf
      match pyDictGet course "language" with
      | .error e => .error e
      | .ok l =>
        match textwrap_fill_cell l language_column_width with
        | .error e => .error e
        | .ok lf =>
          let wb := setCell wb row 2 lf
          match pyDictGet course "start_date" with
          | .error e => .error e
          | .ok sd =>
            let wb := setCell wb row 3 (.plain sd)
            match pyDictGet course "weeks" with
            | .error e => .error e
            | .ok wk =>
              let wb := setCell wb row 4 (.plain wk)
              match pyDictGet course "average_score" with
              | .error e => .error e
              | .ok av => .ok (setCell wb row 5 (.plain av))

/-- The `for row, course in enumerate(courses_info)` loop: course `idx`
(0-based) goes to spreadsheet row `idx + 2`. -/
def output_rows (wb : Workbook) (idx : Nat)
    (courses : List (List (String × PyVal)))
    (name_column_width language_column_width : Int) :
    Except PyExn Workbook :=
  match courses with
  | [] => .ok wb
  | c :: rest =>
    match writeCourseRow wb (idx + 2) c name_column_width
        language_column_width with
    | .error e => .error e
    | .ok wb2 =>
      output_rows wb2 (idx + 1) rest name_column_width language_column_width

/-- `output_courses_info_to_xlsx`: fill the data rows, then save.
`os.path.join(file_path)` on a single argument is the identity, and
`workbook.save(file_path)` is modelled by returning the final workbook
together with the path it is saved under. -/
def output_courses_info_to_xlsx (wb : Workbook) (file_path : String)
    (courses_info : List (List (String × PyVal)))
    (name_column_width language_column_width : Int) :
    Except PyExn (Workbook × String) :=
  match output_rows wb 0 courses_info name_column_width
      language_column_width with
  | .error e => .error e
  | .ok wb2 => .ok (wb2, file_path)

/-- The observable effects of a `__main__` run. -/
inductive Effect where
  | printed : String → Effect
  | saved : String → Workbook → Effect

/-- The environment of a run: the sitemap response and, per course URL, the
course page response. -/
structure Env where
  sitemap : HttpResponse SitemapDoc
  page : String → HttpResponse CourseDoc

/-- first print of `__main__` -/
def getting_msg : String := "---Getting course list..."

/-- second print of the happy path -/
def parsing_msg : String :=
  "---Parsing courses info. This can take a while (few seconds for every course)."

/-- diagnostic printed when the course list is `None` or empty -/
def error_msg : String :=
  "!!! Something went wrong: check your internet connection; also coursera xml feed may changed"

/-- final print of the happy path -/
def success_msg (f : String) : String := "---Success: " ++ f ++ " is ready!"

/-- The `if __name__ == '__main__':` block, after `parse_arguments` has
produced `(courses_amount, name_col_width, language_col_width,
output_file_name)`: fix up the filename, fetch the course list, and either
run the parse/write pipeline or print the diagnostic.  The result is the
list of effects in order, plus the uncaught exception if one aborts the
run. -/
def main_run (env : Env) (courses_amount : Int)
    (name_col_width language_col_width : Int) (output_name : String) :
    List Effect × Option PyExn :=
  let output_file_name := adjust_output_filename output_name
  match get_courses_list env.sitemap courses_amount with
  | none => ([.printed getting_msg, .printed error_msg], none)
  | some urls =>
    if urls.isEmpty then ([.printed getting_msg, .printed error_msg], none)
    else
      match parse_courses env.page urls with
      | .error e => ([.printed getting_msg], some e)
      | .ok courses =>
        let wb := setup_excel_workbook name_col_width language_col_width
          16 9 16
        match output_courses_info_to_xlsx wb output_file_name courses
            name_col_width language_col_width with
        | .error e =>
          ([.printed getting_msg, .printed parsing_msg], some e)
        | .ok (wb2, path) =>
          ([.printed getting_msg, .printed parsing_msg, .saved path wb2,
            .printed (success_msg output_file_name)], none)

/-- Which extraction a dictionary value can come from, per key: the spec's
"value parsed from the page", spelled as the successful branch of the
corresponding getter. -/
def ParsedFrom (soup : Option CourseDoc) : String → PyVal → Prop
  | "name", v => ∃ d e, soup = some d ∧ d.nameElem = some e ∧ v = .vStr e.text
  | "language", v =>
    ∃ d e, soup = some d ∧ d.languageElem = some e ∧ v = .vStr e.text
  | "weeks", v =>
    ∃ d wv, soup = some d ∧ d.weeksElem = some wv ∧ v = .vInt wv.weeks.length
  | "average_score", v =>
    ∃ d sc r, soup = some d ∧ findWindowAppScript d = some sc ∧
      findRating sc.text = some r ∧ v = .vStr r
  | "start_date", v => start_date_body soup = .ok v
  | _, _ => False

/-- A course dictionary of the shape `get_course_info` produces, as far as
`output_courses_info_to_xlsx` needs: the five keys are present and the two
`textwrap.fill` arguments are strings. -/
def WFdict (d : List (String × PyVal)) : Prop :=
  (∃ s, d.lookup "name" = some (.vStr s)) ∧
  (∃ s, d.lookup "language" = some (.vStr s)) ∧
  (d.lookup "start_date").isSome = true ∧
  (d.lookup "weeks").isSome = true ∧
  (d.lookup "average_score").isSome = true

/-- The target rows of the data-row writes: five writes to row `r`, then
five to `r + 1`, and so on for `n` rows. -/
def rowsOf : Nat → Nat → List Nat
  | _, 0 => []
  | r, n + 1 => List.replicate 5 r ++ rowsOf (r + 1) n

/-- The all-placeholder course dictionary, produced for a page whose fetch
failed. -/
def dashInfo : List (String × PyVal) :=
  [("name", .vStr "-"), ("language", .vStr "-"), ("weeks", .vStr "-"),
   ("average_score", .vStr "-"), ("start_date", .vStr "-")]

/-- A sitemap response with a single URL, for concrete checks. -/
def c1Sitemap : HttpResponse SitemapDoc :=
  ⟨200, ⟨["https://www.coursera.org/learn/a"]⟩⟩

/-- A course page with none of the queried markup. -/
def emptyCourseDoc : CourseDoc := ⟨none, none, none, []⟩

/-- A course page lacking the name element whose `ld+json` script decodes
to the JSON string `"x"`: subscripting a `str` by `'hasCourseInstance'`
raises `TypeError`, which `get_start_date` does not catch. -/
def c2Doc : CourseDoc :=
  ⟨none, some ⟨"English"⟩, none,
   [⟨some "application/ld+json", "\"x\"", some (.vStr "x")⟩]⟩

/-- A course page whose `ld+json` payload is the JSON string `"x"`. -/
def c3Doc : CourseDoc :=
  ⟨none, none, none,
   [⟨some "application/ld+json", "\"x\"", some (.vStr "x")⟩]⟩

/-- A network where every course URL serves `c3Doc` with status 200. -/
def c3Fetch : String → HttpResponse CourseDoc := fun _ => ⟨200, c3Doc⟩

/-- A network where every course page request fails with status 404. -/
def c9Fetch : String → HttpResponse CourseDoc := fun _ => ⟨404, emptyCourseDoc⟩

/-- An environment whose sitemap fetch fails with status 500. -/
def c5Env : Env := ⟨⟨500, ⟨["x"]⟩⟩, c9Fetch⟩

/-- A fully populated course page, for concrete evaluation. -/
def c8Doc : CourseDoc :=
  ⟨some ⟨"Course A"⟩, some ⟨"English"⟩, some ⟨[⟨"w1"⟩, ⟨"w2"⟩]⟩,
   [⟨none, "window.App x \"averageFiveStarRating\":4.5,", none⟩,
    ⟨some "application/ld+json", "json text",
     some (.vDict [("hasCourseInstance",
       .vList [.vDict [("startDate", .vStr "2017-09-01")]])])⟩]⟩

/-- The dictionary `get_course_info` extracts from `c8Doc`. -/
def c8Info : List (String × PyVal) :=
  [("name", .vStr "Course A"), ("language", .vStr "English"),
   ("weeks", .vInt 2), ("average_score", .vStr "4.5"),
   ("start_date", .vStr "2017-09-01")]

theorem foldl_cellUpd_const (r c : Nat) :
    ∀ (ws : List ((Nat × Nat) × XVal)) (acc : Option XVal),
      (∀ w ∈ ws, w.1.1 ≠ r ∨ w.1.2 ≠ c) →
      ws.foldl (cellUpd r c) acc = acc := by
  intro ws
  induction ws with
  | nil => intro acc _; rfl
  | cons w t ih =>
    intro acc h
    have hw := h w (List.mem_cons_self w t)
    have : cellUpd r c acc w = acc := by
      unfold cellUpd
      rw [if_neg]
      rintro ⟨h1, h2⟩
      rcases hw with hw | hw
      · exact hw h1
      · exact hw h2
    rw [List.foldl_cons, this]
    exact ih acc (fun w hwmem => h w (List.mem_cons_of_mem _ hwmem))

theorem cellValueW_append (ws1 ws2 : List ((Nat × Nat) × XVal)) (r c : Nat) :
    cellValueW (ws1 ++ ws2) r c = ws2.foldl (cellUpd r c) (cellValueW ws1 r c) := by
  unfold cellValueW
  exact List.foldl_append _ _ _ _

theorem cellValueW_append_skip (ws1 ws2 : List ((Nat × Nat) × XVal)) (r c : Nat)
    (h : ∀ w ∈ ws2, w.1.1 ≠ r ∨ w.1.2 ≠ c) :
    cellValueW (ws1 ++ ws2) r c = cellValueW ws1 r c := by
  rw [cellValueW_append]
  exact foldl_cellUpd_const r c ws2 _ h

theorem parse_courses_length
    (fetch : String → HttpResponse CourseDoc) :
    ∀ (urls : List String) (courses : List (List (String × PyVal))),
      parse_courses fetch urls = .ok courses →
      courses.length = urls.length := by
  intro urls
  induction urls with
  | nil =>
    intro courses h
    unfold parse_courses at h
    cases h
    rfl
  | cons u rest ih =>
    intro courses h
    unfold parse_courses at h
    cases hc : get_course_info (get_soup_from_url (fetch u)) with
    | error e => rw [hc] at h; cases h
    | ok info =>
      rw [hc] at h
      cases hr : parse_courses fetch rest with
      | error e => rw [hr] at h; cases h
      | ok tail =>
        rw [hr] at h
        cases h
        simp [ih tail hr]

theorem get_course_info_WF (soup : Option CourseDoc)
    (info : List (String × PyVal)) (h : get_course_info soup = .ok info) :
    WFdict info := by
  unfold get_course_info at h
  cases hsd : get_start_date soup with
  | error e => rw [hsd] at h; cases h
  | ok sd =>
    rw [hsd] at h
    cases h
    exact ⟨⟨_, rfl⟩, ⟨_, rfl⟩, rfl, rfl, rfl⟩

theorem parse_courses_WF
    (fetch : String → HttpResponse CourseDoc) :
    ∀ (urls : List String) (courses : List (List (String × PyVal))),
      parse_courses fetch urls = .ok courses →
      ∀ c ∈ courses, WFdict c := by
  intro urls
  induction urls with
  | nil =>
    intro courses h
    unfold parse_courses at h
    cases h
    intro c hc
    cases hc
  | cons u rest ih =>
    intro courses h
    unfold parse_courses at h
    cases hc : get_course_info (get_soup_from_url (fetch u)) with
    | error e => rw [hc] at h; cases h
    | ok info =>
      rw [hc] at h
      cases hr : parse_courses fetch rest with
      | error e => rw [hr] at h; cases h
      | ok tail =>
        rw [hr] at h
        cases h
        intro c hcmem
        rcases List.mem_cons.mp hcmem with hceq | hcmem2
        · exact hceq ▸ get_course_info_WF _ _ hc
        · exact ih tail hr c hcmem2

theorem mem_rowsOf : ∀ (n r x : Nat), x ∈ rowsOf r n → r ≤ x ∧ x < r + n := by
  intro n
  induction n with
  | zero => intro r x h; cases h
  | succ m ih =>
    intro r x h
    unfold rowsOf at h
    rcases List.mem_append.mp h with h1 | h2
    · have := List.eq_of_mem_replicate h1
      omega
    · have := ih (r + 1) x h2
      omega

theorem rowsOf_dedup_length : ∀ (n r : Nat), (rowsOf r n).dedup.length = n := by
  intro n
  induction n with
  | zero => intro r; rfl
  | succ m ih =>
    intro r
    have hnot : r ∉ rowsOf (r + 1) m := by
      intro hmem
      have := mem_rowsOf m (r + 1) r hmem
      omega
    show (List.replicate 5 r ++ rowsOf (r + 1) m).dedup.length = m + 1
    have : List.replicate 5 r ++ rowsOf (r + 1) m =
        r :: r :: r :: r :: r :: rowsOf (r + 1) m := rfl
    rw [this]
    rw [List.dedup_cons_of_mem (by simp), List.dedup_cons_of_mem (by simp),
      List.dedup_cons_of_mem (by simp), List.dedup_cons_of_mem (by simp),
      List.dedup_cons_of_not_mem hnot]
    simp [ih (r + 1)]

theorem writeCourseRow_ok (wb : Workbook) (row : Nat)
    (c : List (String × PyVal)) (nw lw : Int) (h : WFdict c) :
    ∃ n l sd wk av,
      c.lookup "name" = some (.vStr n) ∧
      c.lookup "language" = some (.vStr l) ∧
      c.lookup "start_date" = some sd ∧
      c.lookup "weeks" = some wk ∧
      c.lookup "average_score" = some av ∧
      writeCourseRow wb row c nw lw = .ok
        { wb with writes := wb.writes ++
            [((row, 1), .filled n nw), ((row, 2), .filled l lw),
             ((row, 3), .plain sd), ((row, 4), .plain wk),
             ((row, 5), .plain av)] } := by
  obtain ⟨⟨n, hn⟩, ⟨l, hl⟩, hsd, hwk, hav⟩ := h
  obtain ⟨sd, hsd⟩ := Option.isSome_iff_exists.mp hsd
  obtain ⟨wk, hwk⟩ := Option.isSome_iff_exists.mp hwk
  obtain ⟨av, hav⟩ := Option.isSome_iff_exists.mp hav
  refine ⟨n, l, sd, wk, av, hn, hl, hsd, hwk, hav, ?_⟩
  simp [writeCourseRow, pyDictGet, hn, hl, hsd, hwk, hav,
    textwrap_fill_cell, setCell]

theorem output_rows_ok :
    ∀ (cs : List (List (String × PyVal))) (wb : Workbook) (idx : Nat)
      (nw lw : Int), (∀ c ∈ cs, WFdict c) →
      ∃ wb2 ws, output_rows wb idx cs nw lw = .ok wb2 ∧
        wb2.writes = wb.writes ++ ws ∧
        ws.map (fun w => w.1.1) = rowsOf (idx + 2) cs.length ∧
        (∀ r c2, r < idx + 2 → cellValue wb2 r c2 = cellValue wb r c2) ∧
        (∀ k, ∀ hk : k < cs.length, ∃ n l sd wk av,
          (cs.get ⟨k, hk⟩).lookup "name" = some (.vStr n) ∧
          (cs.get ⟨k, hk⟩).lookup "language" = some (.vStr l) ∧
          (cs.get ⟨k, hk⟩).lookup "start_date" = some sd ∧
          (cs.get ⟨k, hk⟩).lookup "weeks" = some wk ∧
          (cs.get ⟨k, hk⟩).lookup "average_score" = some av ∧
          cellValue wb2 (idx + 2 + k) 1 = some (.filled n nw) ∧
          cellValue wb2 (idx + 2 + k) 2 = some (.filled l lw) ∧
          cellValue wb2 (idx + 2 + k) 3 = some (.plain sd) ∧
          cellValue wb2 (idx + 2 + k) 4 = some (.plain wk) ∧
          cellValue wb2 (idx + 2 + k) 5 = some (.plain av)) := by
  intro cs
  induction cs with
  | nil =>
    intro wb idx nw lw _
    refine ⟨wb, [], rfl, by simp, rfl, fun r c2 _ => rfl, fun k hk => ?_⟩
    exact absurd hk (by simp)
  | cons c rest ih =>
    intro wb idx nw lw h
    obtain ⟨n, l, sd, wk, av, hn, hl, hsd, hwk, hav, hrow⟩ :=
      writeCourseRow_ok wb (idx + 2) c nw lw (h c (List.mem_cons_self c rest))
    obtain ⟨wb2, ws2, hout, hw, hmap, hpres, hcells⟩ :=
      ih { wb with writes := wb.writes ++
            [((idx + 2, 1), .filled n nw), ((idx + 2, 2), .filled l lw),
             ((idx + 2, 3), .plain sd), ((idx + 2, 4), .plain wk),
             ((idx + 2, 5), .plain av)] }
        (idx + 1) nw lw (fun c2 hc2 => h c2 (List.mem_cons_of_mem _ hc2))
    refine ⟨wb2,
      [((idx + 2, 1), .filled n nw), ((idx + 2, 2), .filled l lw),
       ((idx + 2, 3), .plain sd), ((idx + 2, 4), .plain wk),
       ((idx + 2, 5), .plain av)] ++ ws2, ?_, ?_, ?_, ?_, ?_⟩
    · simp only [output_rows]
      rw [hrow]
      exact hout
    · rw [hw]
      simp
    · have e : idx + 1 + 2 = idx + 2 + 1 := by omega
      rw [List.map_append, hmap, e, List.length_cons, rowsOf]
      simp [List.replicate]
    · intro r c2 hr
      rw [hpres r c2 (by omega)]
      show cellValueW (wb.writes ++ _) r c2 = cellValue wb r c2
      apply cellValueW_append_skip
      intro w hwmem
      fin_cases hwmem <;> (left; simp; omega)
    · intro k hk
      cases k with
      | zero =>
        refine ⟨n, l, sd, wk, av, hn, hl, hsd, hwk, hav, ?_, ?_, ?_, ?_, ?_⟩ <;>
          (rw [show idx + 2 + 0 = idx + 2 from rfl, hpres (idx + 2) _ (by omega)]
           show cellValueW (wb.writes ++ _) (idx + 2) _ = _
           rw [cellValueW_append]
           simp [List.foldl, cellUpd])
      | succ k2 =>
        have hk2 : k2 < rest.length := by
          have := hk; simp at this; omega
        obtain ⟨n2, l2, sd2, wk2, av2, f1, f2, f3, f4, f5, g1, g2, g3, g4, g5⟩ :=
          hcells k2 hk2
        have e : idx + 2 + (k2 + 1) = idx + 1 + 2 + k2 := by omega
        exact ⟨n2, l2, sd2, wk2, av2, f1, f2, f3, f4, f5,
          e ▸ g1, e ▸ g2, e ▸ g3, e ▸ g4, e ▸ g5⟩

/-- C1 counterexample: with one `<loc>` entry and requested amount 0, bs4
treats the falsy limit as "no limit", so `get_courses_list` returns the one
entry instead of the claimed `min(N, A) = min(1, 0) = 0` entries. -/
theorem C1_counterexample :
    get_courses_list c1Sitemap 0 = some ["https://www.coursera.org/learn/a"] ∧
    get_courses_list c1Sitemap 0 ≠
      some ((["https://www.coursera.org/learn/a"] : List String).take
        (min 1 0)) := by
  exact ⟨rfl, by decide⟩

/-- C1 (amended): for every sitemap response that arrives with status 200
and every requested amount A ≥ 1, `get_courses_list` returns the first
min(N, A) `<loc>` entries in document order (when A = 0 the bs4 limit is
disabled and all N entries are returned; a negative A yields at most one). -/
theorem C1_amended (r : HttpResponse SitemapDoc) (amount : Int)
    (h1 : r.status = 200) (h2 : 1 ≤ amount) :
    get_courses_list r amount = some (r.body.locs.take amount.toNat) ∧
    (r.body.locs.take amount.toNat).length =
      min r.body.locs.length amount.toNat := by
  constructor
  · unfold get_courses_list get_soup_from_url
    rw [if_pos h1]
    show some (bs_find_all_limit amount r.body.locs) = _
    unfold bs_find_all_limit
    rw [if_neg (by omega), if_neg (by omega)]
  · simp [List.length_take, Nat.min_comm]

/-- C1 witness: the amended statement evaluated on the concrete sitemap. -/
theorem C1_amended_witness :
    get_courses_list c1Sitemap 1 =
      some (c1Sitemap.body.locs.take (Int.toNat 1)) ∧
    (c1Sitemap.body.locs.take (Int.toNat 1)).length =
      min c1Sitemap.body.locs.length (Int.toNat 1) :=
  C1_amended c1Sitemap 1 rfl (by decide)

/-- C4 counterexample: `'a.xlsx.bak'` does not end with the `.xlsx`
extension, yet the code leaves it unchanged (it only tests substring
containment), contradicting the claimed append. -/
theorem C4_counterexample :
    spec_hasXlsxExtension "a.xlsx.bak" = false ∧
    adjust_output_filename "a.xlsx.bak" = "a.xlsx.bak" ∧
    "a.xlsx.bak" ≠ "a.xlsx.bak" ++ ".xlsx" := by
  refine ⟨rfl, rfl, by decide⟩

/-- C4 (amended): if the filename does not contain `'.xlsx'` as a
substring, the program appends `'.xlsx'`; if it contains it anywhere, the
filename is left unchanged. -/
theorem C4_amended (s : String) :
    (pyStrContains ".xlsx" s = false →
      adjust_output_filename s = s ++ ".xlsx") ∧
    (pyStrContains ".xlsx" s = true → adjust_output_filename s = s) := by
  constructor <;> intro h <;> simp [adjust_output_filename, h]

/-- C4 witness: both branches of the amended statement on concrete names. -/
theorem C4_amended_witness :
    adjust_output_filename "courses" = "courses" ++ ".xlsx" ∧
    adjust_output_filename "courses.xlsx" = "courses.xlsx" :=
  ⟨(C4_amended "courses").1 (by decide), (C4_amended "courses.xlsx").2 (by decide)⟩

/-- C6: for all column widths, the workbook produced by
`setup_excel_workbook` has exactly the five header cells
`Name of course`, `Language`, `Date of start`, `Duration`, `Average score`
in row 1, columns 1-5, and nothing anywhere else. -/
theorem C6_header (w1 w2 w3 w4 w5 : Int) :
    cellValue (setup_excel_workbook w1 w2 w3 w4 w5) 1 1 =
      some (.plain (.vStr "Name of course")) ∧
    cellValue (setup_excel_workbook w1 w2 w3 w4 w5) 1 2 =
      some (.plain (.vStr "Language")) ∧
    cellValue (setup_excel_workbook w1 w2 w3 w4 w5) 1 3 =
      some (.plain (.vStr "Date of start")) ∧
    cellValue (setup_excel_workbook w1 w2 w3 w4 w5) 1 4 =
      some (.plain (.vStr "Duration")) ∧
    cellValue (setup_excel_workbook w1 w2 w3 w4 w5) 1 5 =
      some (.plain (.vStr "Average score")) ∧
    (∀ c, c ∉ ([1, 2, 3, 4, 5] : List Nat) →
      cellValue (setup_excel_workbook w1 w2 w3 w4 w5) 1 c = none) ∧
    (∀ r c, r ≠ 1 →
      cellValue (setup_excel_workbook w1 w2 w3 w4 w5) r c = none) := by
  refine ⟨rfl, rfl, rfl, rfl, rfl, ?_, ?_⟩
  · intro c hc
    simp only [List.mem_cons, List.mem_singleton, not_or] at hc
    obtain ⟨h1, h2, h3, h4, h5⟩ := hc
    show cellValueW _ 1 c = none
    apply foldl_cellUpd_const
    intro w hw
    fin_cases hw <;> (right; simp; omega)
  · intro r c hr
    show cellValueW _ r c = none
    apply foldl_cellUpd_const
    intro w hw
    fin_cases hw <;> (left; simp; omega)

/-- C6 witness: the header statement instantiated at the default widths,
with the quantified parts applied at sample cells. -/
theorem C6_header_witness :
    cellValue (setup_excel_workbook 40 40 16 9 16) 1 1 =
      some (.plain (.vStr "Name of course")) ∧
    cellValue (setup_excel_workbook 40 40 16 9 16) 1 9 = none ∧
    cellValue (setup_excel_workbook 40 40 16 9 16) 3 1 = none :=
  ⟨(C6_header 40 40 16 9 16).1,
   (C6_header 40 40 16 9 16).2.2.2.2.2.1 9 (by decide),
   (C6_header 40 40 16 9 16).2.2.2.2.2.2 3 1 (by decide)⟩

/-- C7: with no CLI arguments, `parse_arguments` returns the defaults —
amount 20, name width 40, language width 40, output `courses.xlsx` — and
with four positional values it returns them converted and in that order. -/
theorem C7_defaults :
    parse_arguments [] = some (20, 40, 40, "courses.xlsx") ∧
    ∀ a o nw lw na nwa lwa, pyParseInt a = some na → pyParseInt nw = some nwa →
      pyParseInt lw = some lwa →
      parse_arguments [a, o, nw, lw] = some (na, nwa, lwa, o) := by
  constructor
  · rfl
  · intro a o nw lw na nwa lwa h1 h2 h3
    simp [parse_arguments, h1, h2, h3]

/-- C7 witness: the defaults, and a concrete four-argument command line. -/
theorem C7_defaults_witness :
    parse_arguments [] = some (20, 40, 40, "courses.xlsx") ∧
    parse_arguments ["5", "out.xlsx", "30", "35"] = some (5, 30, 35, "out.xlsx") :=
  ⟨C7_defaults.1,
   C7_defaults.2 "5" "out.xlsx" "30" "35" 5 30 35 (by decide) (by decide) (by decide)⟩

/-- C2 counterexample: a page lacking the name element whose `ld+json`
payload decodes to the JSON string `"x"`.  `get_name` duly returns `'-'`,
but the remaining fields are not all extracted: start-date extraction
raises an uncaught `TypeError`, so `get_course_info` produces no
dictionary at all. -/
theorem C2_counterexample :
    c2Doc.nameElem = none ∧
    get_name (some c2Doc) = "-" ∧
    get_course_info (some c2Doc) = .error .typeError :=
  ⟨rfl, rfl, rfl⟩

/-- C2 (amended): a getter whose markup element is absent returns `'-'`
instead of raising, and the other getters are unaffected; all five fields
appear in the dictionary whenever `get_course_info` returns one, which it
does unless start-date extraction itself hits an uncaught exception
(a malformed or non-object `ld+json` payload). -/
theorem C2_amended (d : CourseDoc) :
    (d.nameElem = none → get_name (some d) = "-") ∧
    (d.languageElem = none → get_language (some d) = "-") ∧
    (d.weeksElem = none → get_duration (some d) = .vStr "-") ∧
    (findWindowAppScript d = none → get_average_score (some d) = "-") ∧
    (findLdJsonScript d = none → get_start_date (some d) = .ok (.vStr "-")) ∧
    (∀ info, get_course_info (some d) = .ok info →
      ∃ sd, get_start_date (some d) = .ok sd ∧
        info = [("name", .vStr (get_name (some d))),
                ("language", .vStr (get_language (some d))),
                ("weeks", get_duration (some d)),
                ("average_score", .vStr (get_average_score (some d))),
                ("start_date", sd)]) := by
  refine ⟨?_, ?_, ?_, ?_, ?_, ?_⟩
  · intro h; simp [get_name, h]
  · intro h; simp [get_language, h]
  · intro h; simp [get_duration, h]
  · intro h; simp [get_average_score, h]
  · intro h; simp [get_start_date, start_date_body, h]
  · intro info h
    unfold get_course_info at h
    cases hsd : get_start_date (some d) with
    | error e => rw [hsd] at h; cases h
    | ok sd =>
      rw [hsd] at h
      cases h
      exact ⟨sd, rfl, rfl⟩

/-- C2 witness: on a page lacking every queried element, each getter
returns the placeholder. -/
theorem C2_amended_witness :
    get_name (some emptyCourseDoc) = "-" ∧
    get_language (some emptyCourseDoc) = "-" ∧
    get_duration (some emptyCourseDoc) = .vStr "-" ∧
    get_average_score (some emptyCourseDoc) = "-" ∧
    get_start_date (some emptyCourseDoc) = .ok (.vStr "-") :=
  ⟨(C2_amended emptyCourseDoc).1 rfl, (C2_amended emptyCourseDoc).2.1 rfl,
   (C2_amended emptyCourseDoc).2.2.1 rfl,
   (C2_amended emptyCourseDoc).2.2.2.1 rfl,
   (C2_amended emptyCourseDoc).2.2.2.2.1 rfl⟩

/-- C8: whenever `get_course_info` returns a dictionary, it has exactly the
five keys `name`, `language`, `weeks`, `average_score`, `start_date` in
that order, and every value is either extracted from the page (in the sense
of `ParsedFrom`) or the placeholder `'-'`. -/
theorem C8_dict_shape (soup : Option CourseDoc)
    (info : List (String × PyVal)) (h : get_course_info soup = .ok info) :
    info.map Prod.fst =
      ["name", "language", "weeks", "average_score", "start_date"] ∧
    ∀ kv ∈ info, kv.2 = .vStr "-" ∨ ParsedFrom soup kv.1 kv.2 := by
  unfold get_course_info at h
  cases hsd : get_start_date soup with
  | error e => rw [hsd] at h; cases h
  | ok sd =>
    rw [hsd] at h
    cases h
    refine ⟨rfl, ?_⟩
    intro kv hkv
    simp only [List.mem_cons, List.not_mem_nil, or_false] at hkv
    rcases hkv with h1 | h1 | h1 | h1 | h1 <;> subst h1
    · cases soup with
      | none => exact Or.inl rfl
      | some d =>
        cases hne : d.nameElem with
        | none => exact Or.inl (by simp [get_name, hne])
        | some e =>
          exact Or.inr ⟨d, e, rfl, hne, by simp [get_name, hne]⟩
    · cases soup with
      | none => exact Or.inl rfl
      | some d =>
        cases hne : d.languageElem with
        | none => exact Or.inl (by simp [get_language, hne])
        | some e =>
          exact Or.inr ⟨d, e, rfl, hne, by simp [get_language, hne]⟩
    · cases soup with
      | none => exact Or.inl rfl
      | some d =>
        cases hne : d.weeksElem with
        | none => exact Or.inl (by simp [get_duration, hne])
        | some wv =>
          exact Or.inr ⟨d, wv, rfl, hne, by simp [get_duration, hne]⟩
    · cases soup with
      | none => exact Or.inl rfl
      | some d =>
        cases hsc : findWindowAppScript d with
        | none => exact Or.inl (by simp [get_average_score, hsc])
        | some sc =>
          cases hr : findRating sc.text with
          | none => exact Or.inl (by simp [get_average_score, hsc, hr])
          | some r =>
            exact Or.inr ⟨d, sc, r, rfl, hsc, hr,
              by simp [get_average_score, hsc, hr]⟩
    · unfold get_start_date at hsd
      cases hb : start_date_body soup with
      | ok v =>
        rw [hb] at hsd
        cases hsd
        exact Or.inr hb
      | error e =>
        rw [hb] at hsd
        cases e <;> simp_all

/-- C8 witness: the dictionary extracted from the fully populated page. -/
theorem C8_dict_shape_witness :
    c8Info.map Prod.fst =
      ["name", "language", "weeks", "average_score", "start_date"] ∧
    ∀ kv ∈ c8Info, kv.2 = .vStr "-" ∨ ParsedFrom (some c8Doc) kv.1 kv.2 :=
  C8_dict_shape (some c8Doc) c8Info rfl

/-- C9: a failed course-page fetch (non-200) neither raises nor drops the
course: `Course(None).get_course_info()` returns the all-placeholder
dictionary, and whenever `parse_courses` returns a list, the entry for a
URL whose fetch failed is exactly that dictionary, at its URL's position. -/
theorem C9_failed_fetch :
    get_course_info none = .ok dashInfo ∧
    ∀ (fetch : String → HttpResponse CourseDoc) (urls : List String)
      (i : Nat) (h : i < urls.length),
      (fetch (urls.get ⟨i, h⟩)).status ≠ 200 →
      ∀ courses, parse_courses fetch urls = .ok courses →
        courses[i]? = some dashInfo := by
  refine ⟨rfl, ?_⟩
  intro fetch urls
  induction urls with
  | nil => intro i h; simp at h
  | cons u rest ih =>
    intro i h hfail courses hparse
    unfold parse_courses at hparse
    cases hc : get_course_info (get_soup_from_url (fetch u)) with
    | error e => rw [hc] at hparse; cases hparse
    | ok info =>
      rw [hc] at hparse
      cases hr : parse_courses fetch rest with
      | error e => rw [hr] at hparse; cases hparse
      | ok tail =>
        rw [hr] at hparse
        cases hparse
        cases i with
        | zero =>
          have hfail2 : (fetch u).status ≠ 200 := hfail
          have hsoup : get_soup_from_url (fetch u) = none := by
            unfold get_soup_from_url
            rw [if_neg hfail2]
          rw [hsoup] at hc
          have hinfo : (Except.ok dashInfo :
              Except PyExn (List (String × PyVal))) = .ok info := by
            rw [← hc]
            rfl
          cases hinfo
          simp
        | succ i2 =>
          have h2 : i2 < rest.length := by
            simp at h; omega
          show (info :: tail)[i2 + 1]? = some dashInfo
          rw [List.getElem?_cons_succ]
          exact ih i2 h2 hfail tail hr

/-- C9 witness: one URL whose fetch returns 404 yields the one-entry list
holding the all-placeholder dictionary. -/
theorem C9_failed_fetch_witness :
    get_course_info none = .ok dashInfo ∧
    ([dashInfo] : List (List (String × PyVal)))[0]? = some dashInfo :=
  ⟨C9_failed_fetch.1,
   C9_failed_fetch.2 c9Fetch ["u"] 0 (by decide) (by decide) [dashInfo] rfl⟩

/-- C5: if the sitemap fetch fails (non-200) or the sitemap has no `<loc>`
URLs, the run prints exactly the fixed diagnostic after the progress line,
saves no spreadsheet file, and never consults the course-page part of the
environment. -/
theorem C5_sitemap_failure (env : Env) (amount nw lw : Int) (out : String)
    (h : env.sitemap.status ≠ 200 ∨ env.sitemap.body.locs = []) :
    main_run env amount nw lw out =
      ([.printed getting_msg, .printed error_msg], none) ∧
    (∀ p w, Effect.saved p w ∉ (main_run env amount nw lw out).1) ∧
    (∀ env2 : Env, env2.sitemap = env.sitemap →
      main_run env2 amount nw lw out = main_run env amount nw lw out) := by
  have hmain : ∀ env2 : Env, env2.sitemap = env.sitemap →
      main_run env2 amount nw lw out =
        ([.printed getting_msg, .printed error_msg], none) := by
    intro env2 heq
    unfold main_run
    rw [heq]
    rcases h with h | h
    · have hg : get_courses_list env.sitemap amount = none := by
        unfold get_courses_list get_soup_from_url
        rw [if_neg h]
      rw [hg]
    · have hg : get_courses_list env.sitemap amount = none ∨
          get_courses_list env.sitemap amount = some [] := by
        unfold get_courses_list get_soup_from_url
        by_cases hs : env.sitemap.status = 200
        · right
          rw [if_pos hs]
          simp [bs_find_all_limit, h]
        · left
          rw [if_neg hs]
      rcases hg with hg | hg
      · rw [hg]
      · rw [hg]
        rfl
  refine ⟨hmain env rfl, ?_, fun env2 heq =>
    (hmain env2 heq).trans (hmain env rfl).symm⟩
  intro p w
  rw [hmain env rfl]
  simp

/-- C5 witness: a 500 sitemap response yields exactly the diagnostic. -/
theorem C5_sitemap_failure_witness :
    main_run c5Env 20 40 40 "courses" =
      ([.printed getting_msg, .printed error_msg], none) :=
  (C5_sitemap_failure c5Env 20 40 40 "courses" (Or.inl (by decide))).1

/-- C3 counterexample: one URL whose page serves an `ld+json` payload that
decodes to the JSON string `"x"`.  Start-date extraction raises an
uncaught `TypeError`, so `parse_courses` produces no list at all, let
alone one dictionary per URL. -/
theorem C3_counterexample :
    parse_courses c3Fetch ["u"] = .error .typeError := rfl

/-- C3 (amended): whenever `parse_courses` returns normally (no uncaught
exception from start-date extraction), it yields exactly one dictionary
per input URL, and `output_courses_info_to_xlsx` then writes exactly one
data row per dictionary (`courses.length` distinct target rows). -/
theorem C3_amended (fetch : String → HttpResponse CourseDoc)
    (urls : List String) (courses : List (List (String × PyVal)))
    (wb : Workbook) (path : String) (nw lw : Int)
    (h : parse_courses fetch urls = .ok courses) :
    courses.length = urls.length ∧
    ∃ wb2 ws,
      output_courses_info_to_xlsx wb path courses nw lw = .ok (wb2, path) ∧
      wb2.writes = wb.writes ++ ws ∧
      (ws.map (fun w => w.1.1)).dedup.length = courses.length := by
  have hlen := parse_courses_length fetch urls courses h
  have hwf := parse_courses_WF fetch urls courses h
  obtain ⟨wb2, ws, hout, hw, hmap, _, _⟩ :=
    output_rows_ok courses wb 0 nw lw hwf
  refine ⟨hlen, wb2, ws, ?_, hw, ?_⟩
  · unfold output_courses_info_to_xlsx
    rw [hout]
  · rw [hmap]
    exact rowsOf_dedup_length courses.length (0 + 2)

/-- C3 witness: one URL whose fetch fails parses to one placeholder
dictionary, and writing it touches exactly one data row. -/
theorem C3_amended_witness :
    ([dashInfo] : List (List (String × PyVal))).length =
      (["u"] : List String).length ∧
    ∃ wb2 ws,
      output_courses_info_to_xlsx (setup_excel_workbook 40 40 16 9 16)
        "courses.xlsx" [dashInfo] 40 40 = .ok (wb2, "courses.xlsx") ∧
      wb2.writes = (setup_excel_workbook 40 40 16 9 16).writes ++ ws ∧
      (ws.map (fun w => w.1.1)).dedup.length =
        ([dashInfo] : List (List (String × PyVal))).length :=
  C3_amended c9Fetch ["u"] [dashInfo] (setup_excel_workbook 40 40 16 9 16)
    "courses.xlsx" 40 40 rfl

/-- C10: `output_courses_info_to_xlsx` preserves input order: the i-th
dictionary (0-based) lands in spreadsheet row i+2 with the wrapped name in
column 1, the wrapped language in column 2, start date in column 3,
duration in column 4 and average score in column 5, and header row 1 is
left unchanged. -/
theorem C10_row_placement (wb : Workbook) (path : String)
    (courses : List (List (String × PyVal))) (nw lw : Int)
    (h : ∀ c ∈ courses, WFdict c) :
    ∃ wb2,
      output_courses_info_to_xlsx wb path courses nw lw = .ok (wb2, path) ∧
      (∀ k, ∀ hk : k < courses.length, ∃ n l sd wk av,
        (courses.get ⟨k, hk⟩).lookup "name" = some (.vStr n) ∧
        (courses.get ⟨k, hk⟩).lookup "language" = some (.vStr l) ∧
        (courses.get ⟨k, hk⟩).lookup "start_date" = some sd ∧
        (courses.get ⟨k, hk⟩).lookup "weeks" = some wk ∧
        (courses.get ⟨k, hk⟩).lookup "average_score" = some av ∧
        cellValue wb2 (k + 2) 1 = some (.filled n nw) ∧
        cellValue wb2 (k + 2) 2 = some (.filled l lw) ∧
        cellValue wb2 (k + 2) 3 = some (.plain sd) ∧
        cellValue wb2 (k + 2) 4 = some (.plain wk) ∧
        cellValue wb2 (k + 2) 5 = some (.plain av)) ∧
      (∀ c2, cellValue wb2 1 c2 = cellValue wb 1 c2) := by
  obtain ⟨wb2, ws, hout, hw, hmap, hpres, hcells⟩ :=
    output_rows_ok courses wb 0 nw lw h
  refine ⟨wb2, ?_, ?_, fun c2 => hpres 1 c2 (by omega)⟩
  · unfold output_courses_info_to_xlsx
    rw [hout]
  · intro k hk
    have e : 0 + 2 + k = k + 2 := by omega
    obtain ⟨n, l, sd, wk, av, f1, f2, f3, f4, f5, g1, g2, g3, g4, g5⟩ :=
      hcells k hk
    exact ⟨n, l, sd, wk, av, f1, f2, f3, f4, f5,
      e ▸ g1, e ▸ g2, e ▸ g3, e ▸ g4, e ▸ g5⟩

/-- C10 witness: writing the dictionary extracted from the populated page
into a fresh header workbook. -/
theorem C10_row_placement_witness :
    ∃ wb2,
      output_courses_info_to_xlsx (setup_excel_workbook 40 40 16 9 16)
        "courses.xlsx" [c8Info] 40 40 = .ok (wb2, "courses.xlsx") ∧
      (∀ k, ∀ hk : k < ([c8Info] : List (List (String × PyVal))).length,
        ∃ n l sd wk av,
        (([c8Info] : List (List (String × PyVal))).get ⟨k, hk⟩).lookup
          "name" = some (.vStr n) ∧
        (([c8Info] : List (List (String × PyVal))).get ⟨k, hk⟩).lookup
          "language" = some (.vStr l) ∧
        (([c8Info] : List (List (String × PyVal))).get ⟨k, hk⟩).lookup
          "start_date" = some sd ∧
        (([c8Info] : List (List (String × PyVal))).get ⟨k, hk⟩).lookup
          "weeks" = some wk ∧
        (([c8Info] : List (List (String × PyVal))).get ⟨k, hk⟩).lookup
          "average_score" = some av ∧
        cellValue wb2 (k + 2) 1 = some (.filled n 40) ∧
        cellValue wb2 (k + 2) 2 = some (.filled l 40) ∧
        cellValue wb2 (k + 2) 3 = some (.plain sd) ∧
        cellValue wb2 (k + 2) 4 = some (.plain wk) ∧
        cellValue wb2 (k + 2) 5 = some (.plain av)) ∧
      (∀ c2, cellValue wb2 1 c2 =
        cellValue (setup_excel_workbook 40 40 16 9 16) 1 c2) :=
  C10_row_placement (setup_excel_workbook 40 40 16 9 16) "courses.xlsx"
    [c8Info] 40 40 (by
      intro c hc
      simp only [List.mem_singleton] at hc
      subst hc
      exact ⟨⟨"Course A", rfl⟩, ⟨"English", rfl⟩, rfl, rfl, rfl⟩)
